import Mathlib

/-!
Shallow embedding of the multi-service orchestration engine of the
`aiplaegcheck` backend (Python).  Remote interactions (HTTP calls to
plagiarism / AI-detection / rephrasing providers, and chat-completion calls
to the language-model provider) are modelled by explicit outcome values
supplied by the environment ("worlds"); every embedded function is a pure
function of its inputs and of those outcomes, mirroring the Python control
flow of `backend/services/plagiarism.py`, `backend/services/rephraser.py`,
`backend/services/summarizer.py` and `backend/main.py`.
-/

namespace AiPlagCheck

/-- JSON object payloads are opaque to the dispatcher; the core only ever
reads string-valued keys from them (`rephrased_text`, `text`), so a payload
is embedded as an association list of string keys to string values. -/
abbrev Payload := List (String × String)

/-- `dict.get(key)` of Python: the value of the first binding of `k`,
if present. -/
def Payload.get : Payload → String → Option String
  | [], _ => none
  | (k2, v) :: rest, k => if k2 = k then some v else Payload.get rest k

/-- Python f-string rendering of an `Optional[str]`: `None` renders as the
string `"None"`. -/
def pyStr : Option String → String
  | some s => s
  | none => "None"

/-- `backend/models.py` `ServiceResult`: result from a single external
service.  `result` is the payload mapping (default empty), `error` the
optional error message (default `None`). -/
structure ServiceResult where
  service_name : String
  service_type : String
  success : Bool
  result : Payload := []
  error : Option String := none
deriving Repr, DecidableEq

/-- A service configuration as consumed by the service callers: a Python
dict accessed via `.get("name", "Unknown Service")`,
`.get("api_url", "")`, `.get("api_key", "")`; each key may be absent. -/
structure ServiceConfig where
  name : Option String := none
  api_url : Option String := none
  api_key : Option String := none
deriving Repr, DecidableEq

/-- Outcome of one outbound HTTP POST (`httpx`), from the dispatcher's
point of view: a 2xx response with a parsed JSON body, a timeout
(`httpx.TimeoutException`), a non-2xx status (`httpx.HTTPStatusError`
raised by `raise_for_status`), or any other exception whose `str(e)` is
`msg` (connection error, malformed JSON body, ...). -/
inductive HttpOutcome where
  | ok (payload : Payload)
  | timeout
  | statusError (code : Nat)
  | otherError (msg : String)
deriving Repr, DecidableEq

/-- `backend/services/plagiarism.py` `check_plagiarism`: check text for
plagiarism using one external service; every outcome of the remote call is
normalised into a `ServiceResult`, no exception escapes. -/
def check_plagiarism (text : String) (service_config : ServiceConfig)
    (outcome : HttpOutcome) : ServiceResult :=
  let service_name := service_config.name.getD "Unknown Service"
  let _ := text
  match outcome with
  | .ok payload =>
      { service_name := service_name, service_type := "plagiarism",
        success := true, result := payload }
  | .timeout =>
      { service_name := service_name, service_type := "plagiarism",
        success := false, error := some "Request timed out" }
  | .statusError code =>
      { service_name := service_name, service_type := "plagiarism",
        success := false, error := some ("HTTP error: " ++ toString code) }
  | .otherError msg =>
      { service_name := service_name, service_type := "plagiarism",
        success := false, error := some msg }

/-- The loop of `check_all_plagiarism_services`, with the index of the next
service threaded through so that the world function `w` can assign one
remote outcome per service position. -/
def check_services_go (text : String) (w : Nat → HttpOutcome) :
    Nat → List ServiceConfig → List ServiceResult
  | _, [] => []
  | i, cfg :: rest =>
      check_plagiarism text cfg (w i) :: check_services_go text w (i + 1) rest

/-- `backend/services/plagiarism.py` `check_all_plagiarism_services`:
check text against all enabled plagiarism services, one result per
service, appended in input order. -/
def check_all_plagiarism_services (text : String)
    (services : List ServiceConfig) (w : Nat → HttpOutcome) :
    List ServiceResult :=
  check_services_go text w 0 services

theorem check_services_go_length (text : String) (w : Nat → HttpOutcome) :
    ∀ (l : List ServiceConfig) (i : Nat),
      (check_services_go text w i l).length = l.length := by
  intro l
  induction l with
  | nil => intro i; rfl
  | cons cfg rest ih =>
      intro i
      simp [check_services_go, ih]

theorem check_services_go_getElem (text : String) (w : Nat → HttpOutcome) :
    ∀ (l : List ServiceConfig) (i k : Nat),
      (check_services_go text w i l)[k]? =
        (l[k]?).map (fun cfg => check_plagiarism text cfg (w (i + k))) := by
  intro l
  induction l with
  | nil => intro i k; rfl
  | cons cfg rest ih =>
      intro i k
      cases k with
      | zero => simp [check_services_go]
      | succ k =>
          simp only [check_services_go, List.getElem?_cons_succ]
          rw [ih (i + 1) k]
          have : i + 1 + k = i + (k + 1) := by omega
          rw [this]

/-- The service name attached to a result is the configured name
(defaulting to "Unknown Service"), whatever the remote outcome. -/
theorem check_plagiarism_name (text : String) (cfg : ServiceConfig)
    (o : HttpOutcome) :
    (check_plagiarism text cfg o).service_name =
      cfg.name.getD "Unknown Service" := by
  cases o <;> rfl

/-- Outcome of one chat-completion call to the language-model provider
(`openai.AsyncOpenAI`): either the call returned and `content` is the first
choice's message content (`none` embeds Python `None`), or some exception
was raised whose `str(e)` is `msg` (timeout, auth failure, ...). -/
inductive LlmOutcome where
  | ok (content : Option String)
  | exn (msg : String)
deriving Repr, DecidableEq

/-- `backend/services/rephraser.py` `rephrase_text_with_openai`: rephrase
text via the language-model provider; returns the rephrased text together
with a `ServiceResult` named "OpenAI Rephraser". -/
def rephrase_text_with_openai (text : String) (api_key : String)
    (o : LlmOutcome) : String × ServiceResult :=
  let _ := text
  let _ := api_key
  match o with
  | .ok content =>
      let rephrased := content.getD ""
      (rephrased,
        { service_name := "OpenAI Rephraser", service_type := "rephrasing",
          success := true, result := [("rephrased_text", rephrased)] })
  | .exn msg =>
      ("",
        { service_name := "OpenAI Rephraser", service_type := "rephrasing",
          success := false, error := some msg })

/-- The remote world as seen by a single rephrasing attempt: depending on
the configured endpoint the attempt performs either one outbound HTTP POST
or one language-model call, so both possible outcomes are supplied and
exactly one is consumed. -/
structure RemoteBehavior where
  http : HttpOutcome
  llm : LlmOutcome
deriving Repr, DecidableEq

/-- `backend/services/rephraser.py` `rephrase_text_with_service`: rephrase
text using one external service.  If the configured `api_url` is the
sentinel "openai", route through the language-model provider with the
service key, or the `OPENAI_API_KEY` environment value `env_key` when the
service key is falsy; otherwise POST to the service and extract the
rephrased string from the JSON body (`rephrased_text` key first, then
`text`, defaulting to `""`). -/
def rephrase_text_with_service (text : String)
    (service_config : ServiceConfig) (b : RemoteBehavior)
    (env_key : String) : String × ServiceResult :=
  let service_name := service_config.name.getD "Unknown Service"
  let api_url := service_config.api_url.getD ""
  let api_key := service_config.api_key.getD ""
  if api_url = "openai" then
    let openai_key := if api_key = "" then env_key else api_key
    rephrase_text_with_openai text openai_key b.llm
  else
    match b.http with
    | .ok result_data =>
        let rephrased :=
          match result_data.get "rephrased_text" with
          | some v => v
          | none => (result_data.get "text").getD ""
        (rephrased,
          { service_name := service_name, service_type := "rephrasing",
            success := true, result := result_data })
    | .timeout =>
        ("",
          { service_name := service_name, service_type := "rephrasing",
            success := false, error := some "Request timed out" })
    | .statusError code =>
        ("",
          { service_name := service_name, service_type := "rephrasing",
            success := false,
            error := some ("HTTP error: " ++ toString code) })
    | .otherError msg =>
        ("",
          { service_name := service_name, service_type := "rephrasing",
            success := false, error := some msg })

/-- The `ServiceResult` returned by `rephrase_with_first_enabled` when the
input service list is empty. -/
def noServicesResult : ServiceResult :=
  { service_name := "None", service_type := "rephrasing",
    success := false, error := some "No rephrasing services enabled" }

/-- The `ServiceResult` of the dead branch of
`rephrase_with_first_enabled` ("this should never happen"). -/
def noServicesAvailableResult : ServiceResult :=
  { service_name := "None", service_type := "rephrasing",
    success := false, error := some "No rephrasing services available" }

/-- The `for service in services` loop of `rephrase_with_first_enabled`:
the index of the next service is threaded through for the world `w`, and
`last` carries the Python `last_result` variable (initially `None`).  On
the first success the loop returns; when it ends, the last result (if any)
is returned with an empty rephrased string. -/
def rephraseLoop (text env_key : String) (w : Nat → RemoteBehavior) :
    Nat → List ServiceConfig → Option ServiceResult → String × ServiceResult
  | _, [], last =>
      match last with
      | some r => ("", r)
      | none => ("", noServicesAvailableResult)
  | i, cfg :: rest, _ =>
      let pr := rephrase_text_with_service text cfg (w i) env_key
      if pr.2.success then pr
      else rephraseLoop text env_key w (i + 1) rest (some pr.2)

/-- `backend/services/rephraser.py` `rephrase_with_first_enabled`:
rephrase text using the first enabled rephrasing service; an empty service
list yields an immediate failure result, otherwise services are attempted
in order until one succeeds. -/
def rephrase_with_first_enabled (text : String)
    (services : List ServiceConfig) (w : Nat → RemoteBehavior)
    (env_key : String) : String × ServiceResult :=
  if services.isEmpty then ("", noServicesResult)
  else rephraseLoop text env_key w 0 services none

/-- Instrumentation of the `rephrase_with_first_enabled` loop: the indices
of the services on which `rephrase_text_with_service` is invoked, in
invocation order (the loop body at index `i` calls the service, records
the result, and continues only on failure). -/
def attemptedGo (text env_key : String) (w : Nat → RemoteBehavior) :
    Nat → List ServiceConfig → List Nat
  | _, [] => []
  | i, cfg :: rest =>
      let pr := rephrase_text_with_service text cfg (w i) env_key
      if pr.2.success then [i]
      else i :: attemptedGo text env_key w (i + 1) rest

/-- The indices of the services actually invoked by
`rephrase_with_first_enabled` (none when the service list is empty). -/
def rephrase_attempts (text : String) (services : List ServiceConfig)
    (w : Nat → RemoteBehavior) (env_key : String) : List Nat :=
  if services.isEmpty then []
  else attemptedGo text env_key w 0 services

theorem rephraseLoop_first_success (text env_key : String)
    (w : Nat → RemoteBehavior) :
    ∀ (l : List ServiceConfig) (i : Nat) (last : Option ServiceResult)
      (k : Nat) (cfg : ServiceConfig),
      l[k]? = some cfg →
      (rephrase_text_with_service text cfg (w (i + k)) env_key).2.success = true →
      (∀ j cfgj, j < k → l[j]? = some cfgj →
        (rephrase_text_with_service text cfgj (w (i + j)) env_key).2.success = false) →
      rephraseLoop text env_key w i l last =
        rephrase_text_with_service text cfg (w (i + k)) env_key := by
  intro l
  induction l with
  | nil => intro i last k cfg hk; simp at hk
  | cons c rest ih =>
      intro i last k cfg hk hs hf
      cases k with
      | zero =>
          simp only [List.getElem?_cons_zero, Option.some.injEq] at hk
          subst hk
          simp only [Nat.add_zero] at hs ⊢
          simp [rephraseLoop, hs]
      | succ k =>
          have hc : (rephrase_text_with_service text c (w i) env_key).2.success = false := by
            simpa using hf 0 c (Nat.succ_pos k) (by simp)
          have hk' : rest[k]? = some cfg := by simpa using hk
          have e1 : i + 1 + k = i + (k + 1) := by omega
          have hs' : (rephrase_text_with_service text cfg (w (i + 1 + k)) env_key).2.success = true := by
            rw [e1]; exact hs
          have hf' : ∀ j cfgj, j < k → rest[j]? = some cfgj →
              (rephrase_text_with_service text cfgj (w (i + 1 + j)) env_key).2.success = false := by
            intro j cfgj hj hcfg
            have e2 : i + 1 + j = i + (j + 1) := by omega
            rw [e2]
            exact hf (j + 1) cfgj (by omega) (by simpa using hcfg)
          have hrec := ih (i + 1)
            (some (rephrase_text_with_service text c (w i) env_key).2) k cfg hk' hs' hf'
          rw [e1] at hrec
          simp only [rephraseLoop, hc]
          simpa [hc] using hrec

theorem attemptedGo_first_success (text env_key : String)
    (w : Nat → RemoteBehavior) :
    ∀ (l : List ServiceConfig) (i : Nat) (k : Nat) (cfg : ServiceConfig),
      l[k]? = some cfg →
      (rephrase_text_with_service text cfg (w (i + k)) env_key).2.success = true →
      (∀ j cfgj, j < k → l[j]? = some cfgj →
        (rephrase_text_with_service text cfgj (w (i + j)) env_key).2.success = false) →
      attemptedGo text env_key w i l = List.range' i (k + 1) := by
  intro l
  induction l with
  | nil => intro i k cfg hk; simp at hk
  | cons c rest ih =>
      intro i k cfg hk hs hf
      cases k with
      | zero =>
          simp only [List.getElem?_cons_zero, Option.some.injEq] at hk
          subst hk
          simp only [Nat.add_zero] at hs
          simp [attemptedGo, hs, List.range']
      | succ k =>
          have hc : (rephrase_text_with_service text c (w i) env_key).2.success = false := by
            simpa using hf 0 c (Nat.succ_pos k) (by simp)
          have hk' : rest[k]? = some cfg := by simpa using hk
          have e1 : i + 1 + k = i + (k + 1) := by omega
          have hs' : (rephrase_text_with_service text cfg (w (i + 1 + k)) env_key).2.success = true := by
            rw [e1]; exact hs
          have hf' : ∀ j cfgj, j < k → rest[j]? = some cfgj →
              (rephrase_text_with_service text cfgj (w (i + 1 + j)) env_key).2.success = false := by
            intro j cfgj hj hcfg
            have e2 : i + 1 + j = i + (j + 1) := by omega
            rw [e2]
            exact hf (j + 1) cfgj (by omega) (by simpa using hcfg)
          have hrec := ih (i + 1) k cfg hk' hs' hf'
          simp [attemptedGo, hc, hrec, List.range']

theorem rephraseLoop_all_fail (text env_key : String)
    (w : Nat → RemoteBehavior) :
    ∀ (l : List ServiceConfig) (i : Nat) (last : Option ServiceResult)
      (lastCfg : ServiceConfig),
      (∀ j cfgj, l[j]? = some cfgj →
        (rephrase_text_with_service text cfgj (w (i + j)) env_key).2.success = false) →
      l[l.length - 1]? = some lastCfg →
      rephraseLoop text env_key w i l last =
        ("", (rephrase_text_with_service text lastCfg (w (i + (l.length - 1))) env_key).2) := by
  intro l
  induction l with
  | nil => intro i last lastCfg _ hlast; simp at hlast
  | cons c rest ih =>
      intro i last lastCfg hf hlast
      have hc : (rephrase_text_with_service text c (w i) env_key).2.success = false := by
        simpa using hf 0 c (by simp)
      cases rest with
      | nil =>
          simp only [List.length_cons, List.length_nil, Nat.zero_add,
            Nat.sub_self, List.getElem?_cons_zero, Option.some.injEq] at hlast
          subst hlast
          simp [rephraseLoop, hc]
      | cons c2 rest2 =>
          have hf' : ∀ j cfgj, (c2 :: rest2)[j]? = some cfgj →
              (rephrase_text_with_service text cfgj (w (i + 1 + j)) env_key).2.success = false := by
            intro j cfgj hcfg
            have e2 : i + 1 + j = i + (j + 1) := by omega
            rw [e2]
            exact hf (j + 1) cfgj (by simpa using hcfg)
          have hlast' : (c2 :: rest2)[(c2 :: rest2).length - 1]? = some lastCfg := by
            simpa using hlast
          have hrec := ih (i + 1)
            (some (rephrase_text_with_service text c (w i) env_key).2) lastCfg hf' hlast'
          have e3 : i + 1 + ((c2 :: rest2).length - 1) =
              i + ((c :: c2 :: rest2).length - 1) := by
            simp only [List.length_cons]
            omega
          rw [e3] at hrec
          simp only [rephraseLoop, hc]
          simpa [hc] using hrec

/-- Claim C1: for every text and every ordered list of service
configurations, a category dispatch returns exactly one `ServiceResult`
per input service, in the same order, with `results[i].service_name`
equal to `input[i].name` for every index `i` at which a name is
configured, regardless of which individual calls fail (the world `w` is
arbitrary); and dispatching an empty service list returns the empty
sequence, not an error. -/
theorem dispatch_one_result_per_service_in_order (text : String)
    (services : List ServiceConfig) (w : Nat → HttpOutcome)
    (i : Nat) (cfg : ServiceConfig) (n : String)
    (hi : services[i]? = some cfg) (hn : cfg.name = some n) :
    (check_all_plagiarism_services text services w).length = services.length ∧
    ((check_all_plagiarism_services text services w)[i]?).map
      ServiceResult.service_name = some n ∧
    check_all_plagiarism_services text [] w = [] := by
  refine ⟨check_services_go_length text w services 0, ?_, rfl⟩
  rw [check_all_plagiarism_services, check_services_go_getElem, hi]
  simp [check_plagiarism_name, hn]

theorem dispatch_one_result_per_service_in_order_witness :
    (check_all_plagiarism_services "Hello world"
        [{ name := some "A" }, { name := some "B" }]
        (fun _ => .timeout)).length =
      ([{ name := some "A" }, { name := some "B" }] :
        List ServiceConfig).length ∧
    ((check_all_plagiarism_services "Hello world"
        [{ name := some "A" }, { name := some "B" }]
        (fun _ => .timeout))[0]?).map ServiceResult.service_name =
      some "A" ∧
    check_all_plagiarism_services "Hello world" [] (fun _ => .timeout) = [] :=
  dispatch_one_result_per_service_in_order "Hello world"
    [{ name := some "A" }, { name := some "B" }] (fun _ => .timeout)
    0 { name := some "A" } "A" rfl rfl

/-- Claim C2: for every text and every list of rephrasing service
configurations in which the service at position `k` succeeds and all
earlier ones fail, the ordered fallback rephraser returns exactly the
successful provider's pair (rephrased text and `ServiceResult`), and the
services actually invoked are exactly positions `0..k` — one call per
service, services after the first success never invoked. -/
theorem rephrase_first_success_short_circuits (text env_key : String)
    (services : List ServiceConfig) (w : Nat → RemoteBehavior)
    (k : Nat) (cfg : ServiceConfig)
    (hk : services[k]? = some cfg)
    (hs : (rephrase_text_with_service text cfg (w k) env_key).2.success = true)
    (hf : ∀ j cfgj, j < k → services[j]? = some cfgj →
      (rephrase_text_with_service text cfgj (w j) env_key).2.success = false) :
    rephrase_with_first_enabled text services w env_key =
      rephrase_text_with_service text cfg (w k) env_key ∧
    rephrase_attempts text services w env_key = List.range (k + 1) := by
  have hne : services.isEmpty = false := by
    cases services with
    | nil => simp at hk
    | cons c rest => rfl
  constructor
  · rw [rephrase_with_first_enabled, hne]
    simp only [Bool.false_eq_true, if_false]
    have := rephraseLoop_first_success text env_key w services 0 none k cfg hk
      (by simpa using hs) (by simpa using hf)
    simpa using this
  · rw [rephrase_attempts, hne]
    simp only [Bool.false_eq_true, if_false]
    have := attemptedGo_first_success text env_key w services 0 k cfg hk
      (by simpa using hs) (by simpa using hf)
    rw [this, List.range_eq_range']

theorem rephrase_first_success_short_circuits_witness :
    rephrase_with_first_enabled "Hello world"
        [{ name := some "A", api_url := some "urlA" },
         { name := some "B", api_url := some "urlB" },
         { name := some "C", api_url := some "urlC" }]
        (fun i => if i = 0 then ⟨.timeout, .exn "down"⟩
          else ⟨.ok [("rephrased_text", "better text")], .ok none⟩) "" =
      rephrase_text_with_service "Hello world"
        { name := some "B", api_url := some "urlB" }
        ⟨.ok [("rephrased_text", "better text")], .ok none⟩ "" ∧
    rephrase_attempts "Hello world"
        [{ name := some "A", api_url := some "urlA" },
         { name := some "B", api_url := some "urlB" },
         { name := some "C", api_url := some "urlC" }]
        (fun i => if i = 0 then ⟨.timeout, .exn "down"⟩
          else ⟨.ok [("rephrased_text", "better text")], .ok none⟩) "" =
      List.range 2 := by
  refine rephrase_first_success_short_circuits "Hello world" ""
    [{ name := some "A", api_url := some "urlA" },
     { name := some "B", api_url := some "urlB" },
     { name := some "C", api_url := some "urlC" }]
    (fun i => if i = 0 then ⟨.timeout, .exn "down"⟩
      else ⟨.ok [("rephrased_text", "better text")], .ok none⟩)
    1 { name := some "B", api_url := some "urlB" } rfl (by decide) ?_
  intro j cfgj hj hcfg
  interval_cases j
  simp only [List.getElem?_cons_zero, Option.some.injEq] at hcfg
  subst hcfg
  decide

/-- Claim C4: for every non-empty list of rephrasing services in which
every service fails, the ordered fallback rephraser returns the pair of
the empty string and the `ServiceResult` of the last attempted service;
earlier failures are not surfaced. -/
theorem rephrase_all_fail_returns_last (text env_key : String)
    (services : List ServiceConfig) (w : Nat → RemoteBehavior)
    (lastCfg : ServiceConfig)
    (hf : ∀ j cfgj, services[j]? = some cfgj →
      (rephrase_text_with_service text cfgj (w j) env_key).2.success = false)
    (hlast : services[services.length - 1]? = some lastCfg) :
    rephrase_with_first_enabled text services w env_key =
      ("", (rephrase_text_with_service text lastCfg
        (w (services.length - 1)) env_key).2) := by
  have hne : services.isEmpty = false := by
    cases services with
    | nil => simp at hlast
    | cons c rest => rfl
  rw [rephrase_with_first_enabled, hne]
  simp only [Bool.false_eq_true, if_false]
  have := rephraseLoop_all_fail text env_key w services 0 none lastCfg
    (by simpa using hf) hlast
  simpa using this

theorem rephrase_all_fail_returns_last_witness :
    rephrase_with_first_enabled "Hello world"
        [{ name := some "A", api_url := some "urlA" },
         { name := some "B", api_url := some "urlB" }]
        (fun i => if i = 0 then ⟨.timeout, .exn "down"⟩
          else ⟨.statusError 500, .exn "down"⟩) "" =
      ("", (rephrase_text_with_service "Hello world"
        { name := some "B", api_url := some "urlB" }
        ⟨.statusError 500, .exn "down"⟩ "").2) := by
  refine rephrase_all_fail_returns_last "Hello world" ""
    [{ name := some "A", api_url := some "urlA" },
     { name := some "B", api_url := some "urlB" }]
    (fun i => if i = 0 then ⟨.timeout, .exn "down"⟩
      else ⟨.statusError 500, .exn "down"⟩)
    { name := some "B", api_url := some "urlB" } ?_ rfl
  intro j cfgj hcfg
  match j, hcfg with
  | 0, hcfg =>
      simp only [List.getElem?_cons_zero, Option.some.injEq] at hcfg
      subst hcfg; decide
  | 1, hcfg =>
      simp only [List.getElem?_cons_succ, List.getElem?_cons_zero,
        Option.some.injEq] at hcfg
      subst hcfg; decide

/-- Claim C3 counterexample: the dispatcher catches a generic exception
(Python `except Exception as e`) and stores `str(e)` as the error; for an
exception whose message is empty (e.g. `Exception()`), the resulting
`ServiceResult` has `success = false` and an EMPTY error string, refuting
"a non-empty descriptive error string" for the `other` failure kind. -/
theorem dispatch_other_error_can_be_empty :
    (check_plagiarism "sample text" { name := some "A" }
      (.otherError "")).success = false ∧
    (check_plagiarism "sample text" { name := some "A" }
      (.otherError "")).result = [] ∧
    (check_plagiarism "sample text" { name := some "A" }
      (.otherError "")).error = some "" :=
  ⟨rfl, rfl, rfl⟩

/-- Claim C3 (amended): no exception escapes the dispatcher — every outcome
of the remote call (the four constructors of `HttpOutcome` are exhaustive)
maps to a `ServiceResult`; the three failure kinds map to `success = false`
with an empty payload and error string "Request timed out" (which contains
the timeout indicator "timed out" and is non-empty), "HTTP error: <code>"
(which carries the status indicator and is non-empty), and the caught
exception's message (which may be empty) respectively; a call that returns
within the 30-second timeout window with a 2xx status yields the body
verbatim as payload. -/
theorem dispatch_failure_classification (text : String)
    (cfg : ServiceConfig) (code : Nat) (msg : String) (payload : Payload) :
    check_plagiarism text cfg .timeout =
      { service_name := cfg.name.getD "Unknown Service",
        service_type := "plagiarism", success := false,
        error := some ("Request " ++ "timed out") } ∧
    check_plagiarism text cfg (.statusError code) =
      { service_name := cfg.name.getD "Unknown Service",
        service_type := "plagiarism", success := false,
        error := some ("HTTP error: " ++ toString code) } ∧
    0 < ((check_plagiarism text cfg (.statusError code)).error.getD "").length ∧
    check_plagiarism text cfg (.otherError msg) =
      { service_name := cfg.name.getD "Unknown Service",
        service_type := "plagiarism", success := false,
        error := some msg } ∧
    check_plagiarism text cfg (.ok payload) =
      { service_name := cfg.name.getD "Unknown Service",
        service_type := "plagiarism", success := true,
        result := payload } := by
  refine ⟨rfl, rfl, ?_, rfl, rfl⟩
  show 0 < ("HTTP error: " ++ toString code).length
  rw [String.length_append]
  have h12 : "HTTP error: ".length = 12 := rfl
  omega

/-- Claim C9: for every successful remote (non-openai) rephrasing call,
the rephrased string is extracted from the response payload by the
two-key lookup preference `rephrased_text` then `text`, defaulting to the
empty string; a payload with neither key still yields a SUCCESSFUL result
with empty rephrased output, and the payload is kept verbatim. -/
theorem rephrase_two_key_extraction (text env_key : String)
    (cfg : ServiceConfig) (b : RemoteBehavior) (payload : Payload)
    (hurl : cfg.api_url.getD "" ≠ "openai")
    (hok : b.http = .ok payload) :
    rephrase_text_with_service text cfg b env_key =
      ((match payload.get "rephrased_text" with
        | some v => v
        | none => (payload.get "text").getD ""),
       { service_name := cfg.name.getD "Unknown Service",
         service_type := "rephrasing", success := true,
         result := payload }) ∧
    (payload.get "rephrased_text" = none → payload.get "text" = none →
      (rephrase_text_with_service text cfg b env_key).1 = "" ∧
      (rephrase_text_with_service text cfg b env_key).2.success = true) := by
  have hmain : rephrase_text_with_service text cfg b env_key =
      ((match payload.get "rephrased_text" with
        | some v => v
        | none => (payload.get "text").getD ""),
       { service_name := cfg.name.getD "Unknown Service",
         service_type := "rephrasing", success := true,
         result := payload }) := by
    rw [rephrase_text_with_service, if_neg hurl, hok]
  refine ⟨hmain, ?_⟩
  intro h1 h2
  rw [hmain]
  simp [h1, h2]

theorem rephrase_two_key_extraction_witness :
    ((({ name := some "R", api_url := some "urlR" } :
        ServiceConfig).api_url.getD "" ≠ "openai") ∧
      rephrase_text_with_service "Hello world"
        { name := some "R", api_url := some "urlR" }
        ⟨.ok [("verdict", "fine")], .ok none⟩ "" =
      ((match Payload.get [("verdict", "fine")] "rephrased_text" with
        | some v => v
        | none => (Payload.get [("verdict", "fine")] "text").getD ""),
       { service_name := "R", service_type := "rephrasing", success := true,
         result := [("verdict", "fine")] })) ∧
    (Payload.get [("verdict", "fine")] "rephrased_text" = none →
      Payload.get [("verdict", "fine")] "text" = none →
      (rephrase_text_with_service "Hello world"
        { name := some "R", api_url := some "urlR" }
        ⟨.ok [("verdict", "fine")], .ok none⟩ "").1 = "" ∧
      (rephrase_text_with_service "Hello world"
        { name := some "R", api_url := some "urlR" }
        ⟨.ok [("verdict", "fine")], .ok none⟩ "").2.success = true) := by
  have h := rephrase_two_key_extraction "Hello world" ""
    { name := some "R", api_url := some "urlR" }
    ⟨.ok [("verdict", "fine")], .ok none⟩ [("verdict", "fine")]
    (by decide) rfl
  exact ⟨⟨by decide, h.1⟩, h.2⟩

/-- Claim C10: when a rephrasing service is routed through the
internal-LLM sentinel (`api_url` "openai") and the call succeeds, the
returned `ServiceResult` carries the fixed service name "OpenAI Rephraser"
regardless of the configured name, and its payload maps "rephrased_text"
to exactly the rephrased string returned in the tuple (the first
choice's content, or `""` when that content is `None`). -/
theorem openai_route_fixed_name_and_payload (text env_key : String)
    (cfg : ServiceConfig) (b : RemoteBehavior) (content : Option String)
    (hurl : cfg.api_url.getD "" = "openai")
    (hok : b.llm = .ok content) :
    (rephrase_text_with_service text cfg b env_key).2.service_name =
      "OpenAI Rephraser" ∧
    (rephrase_text_with_service text cfg b env_key).2.success = true ∧
    ((rephrase_text_with_service text cfg b env_key).2.result).get
      "rephrased_text" =
      some (rephrase_text_with_service text cfg b env_key).1 ∧
    (rephrase_text_with_service text cfg b env_key).1 = content.getD "" := by
  have hmain : rephrase_text_with_service text cfg b env_key =
      rephrase_text_with_openai text
        (if cfg.api_key.getD "" = "" then env_key else cfg.api_key.getD "")
        (.ok content) := by
    rw [rephrase_text_with_service, if_pos hurl, hok]
  rw [hmain, rephrase_text_with_openai]
  refine ⟨rfl, rfl, ?_, rfl⟩
  simp [Payload.get]

theorem openai_route_fixed_name_and_payload_witness :
    (rephrase_text_with_service "Hello world"
      { name := some "My Custom Rephraser", api_url := some "openai" }
      ⟨.timeout, .ok (some "new text")⟩ "envkey").2.service_name =
      "OpenAI Rephraser" ∧
    (rephrase_text_with_service "Hello world"
      { name := some "My Custom Rephraser", api_url := some "openai" }
      ⟨.timeout, .ok (some "new text")⟩ "envkey").2.success = true ∧
    ((rephrase_text_with_service "Hello world"
      { name := some "My Custom Rephraser", api_url := some "openai" }
      ⟨.timeout, .ok (some "new text")⟩ "envkey").2.result).get
      "rephrased_text" =
      some (rephrase_text_with_service "Hello world"
        { name := some "My Custom Rephraser", api_url := some "openai" }
        ⟨.timeout, .ok (some "new text")⟩ "envkey").1 ∧
    (rephrase_text_with_service "Hello world"
      { name := some "My Custom Rephraser", api_url := some "openai" }
      ⟨.timeout, .ok (some "new text")⟩ "envkey").1 =
      (some "new text").getD "" :=
  openai_route_fixed_name_and_payload "Hello world" "envkey"
    { name := some "My Custom Rephraser", api_url := some "openai" }
    ⟨.timeout, .ok (some "new text")⟩ (some "new text") rfl rfl

/-- The remote HTTP outcome carries a non-empty exception message whenever
a generic exception is caught (the two explicitly classified failures and
successes impose nothing). -/
def httpMsgNonempty : HttpOutcome → Bool
  | .otherError m => !(m = "")
  | _ => true

/-- The language-model outcome carries a non-empty exception message
whenever an exception is caught. -/
def llmMsgNonempty : LlmOutcome → Bool
  | .exn m => !(m = "")
  | _ => true

/-- Both halves of a rephrasing attempt's remote behaviour carry non-empty
exception messages. -/
def behaviorMsgNonempty (b : RemoteBehavior) : Bool :=
  httpMsgNonempty b.http && llmMsgNonempty b.llm

/-- The `ServiceResult` invariant of the spec, with the non-emptiness of
the failure error string stated explicitly. -/
def resultOk (r : ServiceResult) : Prop :=
  (r.success = true → r.error = none) ∧
  (r.success = false → r.result = [] ∧ ∃ s, r.error = some s ∧ s ≠ "")

/-- The part of the `ServiceResult` invariant the code enforces for EVERY
remote outcome: a success carries no error, a failure carries an empty
payload and some error string (possibly empty). -/
def resultBase (r : ServiceResult) : Prop :=
  (r.success = true → r.error = none) ∧
  (r.success = false → r.result = [] ∧ r.error.isSome = true)

/-- The remaining part of the invariant: a failure's error string is
non-empty. -/
def resultErrNonempty (r : ServiceResult) : Prop :=
  r.success = false → ∃ s, r.error = some s ∧ s ≠ ""

theorem check_plagiarism_resultBase (text : String) (cfg : ServiceConfig)
    (o : HttpOutcome) : resultBase (check_plagiarism text cfg o) := by
  cases o with
  | ok payload => exact ⟨fun _ => rfl, by simp [check_plagiarism]⟩
  | timeout => exact ⟨by simp [check_plagiarism], fun _ => ⟨rfl, rfl⟩⟩
  | statusError code => exact ⟨by simp [check_plagiarism], fun _ => ⟨rfl, rfl⟩⟩
  | otherError m => exact ⟨by simp [check_plagiarism], fun _ => ⟨rfl, rfl⟩⟩

theorem rephrase_text_with_openai_resultBase (text key : String)
    (o : LlmOutcome) : resultBase (rephrase_text_with_openai text key o).2 := by
  cases o with
  | ok content => exact ⟨fun _ => rfl, by simp [rephrase_text_with_openai]⟩
  | exn m => exact ⟨by simp [rephrase_text_with_openai], fun _ => ⟨rfl, rfl⟩⟩

theorem rephrase_text_with_service_resultBase (text env_key : String)
    (cfg : ServiceConfig) (b : RemoteBehavior) :
    resultBase (rephrase_text_with_service text cfg b env_key).2 := by
  rw [rephrase_text_with_service]
  by_cases hurl : cfg.api_url.getD "" = "openai"
  · rw [if_pos hurl]
    exact rephrase_text_with_openai_resultBase _ _ _
  · rw [if_neg hurl]
    cases b.http with
    | ok payload => exact ⟨fun _ => rfl, by simp⟩
    | timeout => exact ⟨by simp, fun _ => ⟨rfl, rfl⟩⟩
    | statusError code => exact ⟨by simp, fun _ => ⟨rfl, rfl⟩⟩
    | otherError m => exact ⟨by simp, fun _ => ⟨rfl, rfl⟩⟩

theorem noServicesResult_resultBase : resultBase noServicesResult :=
  ⟨by simp [noServicesResult], fun _ => ⟨rfl, rfl⟩⟩

theorem noServicesAvailableResult_resultBase :
    resultBase noServicesAvailableResult :=
  ⟨by simp [noServicesAvailableResult], fun _ => ⟨rfl, rfl⟩⟩

theorem rephraseLoop_resultBase (text env_key : String)
    (w : Nat → RemoteBehavior) :
    ∀ (l : List ServiceConfig) (i : Nat) (last : Option ServiceResult),
      (∀ r, last = some r → resultBase r) →
      resultBase (rephraseLoop text env_key w i l last).2 := by
  intro l
  induction l with
  | nil =>
      intro i last hlast
      cases last with
      | none => exact noServicesAvailableResult_resultBase
      | some r => exact hlast r rfl
  | cons c rest ih =>
      intro i last hlast
      have hatt := rephrase_text_with_service_resultBase text env_key c (w i)
      by_cases hs : (rephrase_text_with_service text c (w i) env_key).2.success = true
      · simp only [rephraseLoop, hs, if_true]
        exact hatt
      · simp only [rephraseLoop, hs, if_false]
        exact ih (i + 1) _ (fun r hr => by
          injection hr with hr
          rw [← hr]
          exact hatt)

theorem check_plagiarism_resultOk (text : String) (cfg : ServiceConfig)
    (o : HttpOutcome) (h : httpMsgNonempty o = true) :
    resultOk (check_plagiarism text cfg o) := by
  cases o with
  | ok payload => exact ⟨fun _ => rfl, by simp [check_plagiarism]⟩
  | timeout =>
      refine ⟨by simp [check_plagiarism], fun _ => ⟨rfl, "Request timed out", rfl, by decide⟩⟩
  | statusError code =>
      refine ⟨by simp [check_plagiarism],
        fun _ => ⟨rfl, "HTTP error: " ++ toString code, rfl, ?_⟩⟩
      intro hcontra
      have := congrArg String.length hcontra
      rw [String.length_append] at this
      have h12 : "HTTP error: ".length = 12 := rfl
      simp [h12] at this
  | otherError m =>
      simp only [httpMsgNonempty, Bool.not_eq_eq_eq_not, Bool.not_true,
        decide_eq_false_iff_not] at h
      exact ⟨by simp [check_plagiarism], fun _ => ⟨rfl, m, rfl, h⟩⟩

theorem rephrase_text_with_openai_resultOk (text key : String)
    (o : LlmOutcome) (h : llmMsgNonempty o = true) :
    resultOk (rephrase_text_with_openai text key o).2 := by
  cases o with
  | ok content => exact ⟨fun _ => rfl, by simp [rephrase_text_with_openai]⟩
  | exn m =>
      simp only [llmMsgNonempty, Bool.not_eq_eq_eq_not, Bool.not_true,
        decide_eq_false_iff_not] at h
      exact ⟨by simp [rephrase_text_with_openai], fun _ => ⟨rfl, m, rfl, h⟩⟩

theorem rephrase_text_with_service_resultOk (text env_key : String)
    (cfg : ServiceConfig) (b : RemoteBehavior)
    (h : behaviorMsgNonempty b = true) :
    resultOk (rephrase_text_with_service text cfg b env_key).2 := by
  have hh : httpMsgNonempty b.http = true := by
    simp [behaviorMsgNonempty, Bool.and_eq_true] at h
    exact h.1
  have hl : llmMsgNonempty b.llm = true := by
    simp [behaviorMsgNonempty, Bool.and_eq_true] at h
    exact h.2
  rw [rephrase_text_with_service]
  by_cases hurl : cfg.api_url.getD "" = "openai"
  · rw [if_pos hurl]
    exact rephrase_text_with_openai_resultOk _ _ _ hl
  · rw [if_neg hurl]
    cases hb : b.http with
    | ok payload => exact ⟨fun _ => rfl, by simp⟩
    | timeout =>
        exact ⟨by simp, fun _ => ⟨rfl, "Request timed out", rfl, by decide⟩⟩
    | statusError code =>
        refine ⟨by simp, fun _ => ⟨rfl, "HTTP error: " ++ toString code, rfl, ?_⟩⟩
        intro hcontra
        have := congrArg String.length hcontra
        rw [String.length_append] at this
        have h12 : "HTTP error: ".length = 12 := rfl
        simp [h12] at this
    | otherError m =>
        rw [hb] at hh
        simp only [httpMsgNonempty, Bool.not_eq_eq_eq_not, Bool.not_true,
          decide_eq_false_iff_not] at hh
        exact ⟨by simp, fun _ => ⟨rfl, m, rfl, hh⟩⟩

theorem noServicesResult_resultOk : resultOk noServicesResult :=
  ⟨by simp [noServicesResult], fun _ =>
    ⟨rfl, "No rephrasing services enabled", rfl, by decide⟩⟩

theorem noServicesAvailableResult_resultOk :
    resultOk noServicesAvailableResult :=
  ⟨by simp [noServicesAvailableResult], fun _ =>
    ⟨rfl, "No rephrasing services available", rfl, by decide⟩⟩

theorem rephraseLoop_resultOk (text env_key : String)
    (w : Nat → RemoteBehavior) (hw : ∀ i, behaviorMsgNonempty (w i) = true) :
    ∀ (l : List ServiceConfig) (i : Nat) (last : Option ServiceResult),
      (∀ r, last = some r → resultOk r) →
      resultOk (rephraseLoop text env_key w i l last).2 := by
  intro l
  induction l with
  | nil =>
      intro i last hlast
      cases last with
      | none => exact noServicesAvailableResult_resultOk
      | some r => exact hlast r rfl
  | cons c rest ih =>
      intro i last hlast
      have hatt := rephrase_text_with_service_resultOk text env_key c (w i) (hw i)
      by_cases hs : (rephrase_text_with_service text c (w i) env_key).2.success = true
      · simp only [rephraseLoop, hs, if_true]
        exact hatt
      · simp only [rephraseLoop, hs, if_false]
        exact ih (i + 1) _ (fun r hr => by
          injection hr with hr
          rw [← hr]
          exact hatt)

/-- Claim C7 counterexample: a rephrasing attempt hitting a generic
exception with an empty message (Python `except Exception as e` with
`str(e) = ""`) produces a `ServiceResult` with `success = false`, an
empty payload, and an EMPTY error string — refuting the claimed
"success=false implies ... error is non-empty" (while the payload-empty
part does hold at this input). -/
theorem rephraser_failure_error_can_be_empty :
    ((rephrase_text_with_service "sample text"
        { name := some "R", api_url := some "urlR" }
        ⟨.otherError "", .ok none⟩ "").2).success = false ∧
    ((rephrase_text_with_service "sample text"
        { name := some "R", api_url := some "urlR" }
        ⟨.otherError "", .ok none⟩ "").2).result = [] ∧
    ((rephrase_text_with_service "sample text"
        { name := some "R", api_url := some "urlR" }
        ⟨.otherError "", .ok none⟩ "").2).error = some "" := by
  refine ⟨rfl, rfl, rfl⟩

/-- Claim C7 (amended): every `ServiceResult` produced by the dispatcher
(`check_plagiarism`), the rephraser helpers
(`rephrase_text_with_openai`, `rephrase_text_with_service`) and the
ordered fallback rephraser (`rephrase_with_first_enabled`) satisfies,
UNCONDITIONALLY for every remote outcome: `success = true` implies
`error` is empty (`None`), and `success = false` implies the payload is
empty and an error string is present; the failure error string is
moreover non-empty whenever every generic exception caught along the way
carries a non-empty message (`str(e) ≠ ""`) — without that proviso it can
be the empty string (see the counterexample). -/
theorem service_result_invariant (text env_key key : String)
    (cfg : ServiceConfig) (o : HttpOutcome) (lo : LlmOutcome)
    (b : RemoteBehavior) (services : List ServiceConfig)
    (w : Nat → RemoteBehavior) :
    resultBase (check_plagiarism text cfg o) ∧
    resultBase (rephrase_text_with_openai text key lo).2 ∧
    resultBase (rephrase_text_with_service text cfg b env_key).2 ∧
    resultBase (rephrase_with_first_enabled text services w env_key).2 ∧
    (httpMsgNonempty o = true →
      resultErrNonempty (check_plagiarism text cfg o)) ∧
    (llmMsgNonempty lo = true →
      resultErrNonempty (rephrase_text_with_openai text key lo).2) ∧
    (behaviorMsgNonempty b = true →
      resultErrNonempty (rephrase_text_with_service text cfg b env_key).2) ∧
    ((∀ i, behaviorMsgNonempty (w i) = true) →
      resultErrNonempty
        (rephrase_with_first_enabled text services w env_key).2) := by
  refine ⟨check_plagiarism_resultBase text cfg o,
    rephrase_text_with_openai_resultBase text key lo,
    rephrase_text_with_service_resultBase text env_key cfg b,
    ?_, ?_, ?_, ?_, ?_⟩
  · rw [rephrase_with_first_enabled]
    by_cases he : services.isEmpty
    · rw [if_pos he]
      exact noServicesResult_resultBase
    · rw [if_neg he]
      exact rephraseLoop_resultBase text env_key w services 0 none
        (fun r hr => by cases hr)
  · intro h hf
    exact ((check_plagiarism_resultOk text cfg o h).2 hf).2
  · intro h hf
    exact ((rephrase_text_with_openai_resultOk text key lo h).2 hf).2
  · intro h hf
    exact ((rephrase_text_with_service_resultOk text env_key cfg b h).2 hf).2
  · intro hw
    have hok : resultOk (rephrase_with_first_enabled text services w env_key).2 := by
      rw [rephrase_with_first_enabled]
      by_cases he : services.isEmpty
      · rw [if_pos he]
        exact noServicesResult_resultOk
      · rw [if_neg he]
        exact rephraseLoop_resultOk text env_key w hw services 0 none
          (fun r hr => by cases hr)
    exact fun hf => (hok.2 hf).2

theorem service_result_invariant_witness :
    resultBase (check_plagiarism "sample text"
      { name := some "R", api_url := some "urlR" } .timeout) ∧
    resultBase (rephrase_text_with_openai "sample text" "key"
      (.exn "boom")).2 ∧
    resultBase (rephrase_text_with_service "sample text"
      { name := some "R", api_url := some "urlR" }
      ⟨.statusError 500, .exn "boom"⟩ "").2 ∧
    resultBase (rephrase_with_first_enabled "sample text"
      [{ name := some "R", api_url := some "urlR" }]
      (fun _ => ⟨.statusError 500, .exn "boom"⟩) "").2 ∧
    (httpMsgNonempty .timeout = true →
      resultErrNonempty (check_plagiarism "sample text"
        { name := some "R", api_url := some "urlR" } .timeout)) ∧
    (llmMsgNonempty (.exn "boom") = true →
      resultErrNonempty (rephrase_text_with_openai "sample text" "key"
        (.exn "boom")).2) ∧
    (behaviorMsgNonempty ⟨.statusError 500, .exn "boom"⟩ = true →
      resultErrNonempty (rephrase_text_with_service "sample text"
        { name := some "R", api_url := some "urlR" }
        ⟨.statusError 500, .exn "boom"⟩ "").2) ∧
    ((∀ i : Nat, behaviorMsgNonempty
        ((fun _ : Nat => (⟨.statusError 500, .exn "boom"⟩ : RemoteBehavior)) i) =
        true) →
      resultErrNonempty (rephrase_with_first_enabled "sample text"
        [{ name := some "R", api_url := some "urlR" }]
        (fun _ => ⟨.statusError 500, .exn "boom"⟩) "").2) :=
  service_result_invariant "sample text" "" "key"
    { name := some "R", api_url := some "urlR" }
    .timeout (.exn "boom") ⟨.statusError 500, .exn "boom"⟩
    [{ name := some "R", api_url := some "urlR" }]
    (fun _ => ⟨.statusError 500, .exn "boom"⟩)

/-- Rendering of a payload mapping inside the language-model context
string (Python renders the dict; the exact quoting of keys and values is
abstracted here — this string is only ever consumed by the language-model
world, never inspected by the core). -/
def payloadRender (p : Payload) : String :=
  "\x7b" ++ String.intercalate ", " (p.map (fun kv => kv.1 ++ ": " ++ kv.2)) ++ "\x7d"

/-- `backend/services/summarizer.py` `_prepare_results_context`: the
bounded context sent to the language-model provider — the first 500
characters of the text plus a textual rendering of every result of both
categories. -/
def prepare_results_context (text : String)
    (plagiarism_results ai_detection_results : List ServiceResult) : String :=
  "Text being analyzed (first 500 chars): " ++ text.take 500 ++ "...\n\n"
  ++ "PLAGIARISM CHECK RESULTS:\n"
  ++ (if plagiarism_results.isEmpty then
        "- No plagiarism checkers were enabled or available.\n"
      else String.join (plagiarism_results.map (fun r =>
        if r.success then
          "- " ++ r.service_name ++ ": " ++ payloadRender r.result ++ "\n"
        else
          "- " ++ r.service_name ++ ": Error - " ++ pyStr r.error ++ "\n")))
  ++ "\nAI DETECTION RESULTS:\n"
  ++ (if ai_detection_results.isEmpty then
        "- No AI detectors were enabled or available.\n"
      else String.join (ai_detection_results.map (fun r =>
        if r.success then
          "- " ++ r.service_name ++ ": " ++ payloadRender r.result ++ "\n"
        else
          "- " ++ r.service_name ++ ": Error - " ++ pyStr r.error ++ "\n")))

/-- `backend/services/summarizer.py` `_generate_fallback_summary`: the
deterministic Markdown template — optional one-line annotation (only when
`error` is truthy, i.e. present and non-empty), per-category sections
listing successful then failed services (or a "none enabled" line), and a
static recommendations section.  Python's `"".join(parts)` is the
sequential concatenation of the appended parts. -/
def generate_fallback_summary
    (plagiarism_results ai_detection_results : List ServiceResult)
    (error : Option String) : String :=
  "## Analysis Summary\n\n"
  ++ (match error with
      | some e =>
          if e = "" then ""
          else "*Note: AI summary generation encountered an issue: "
            ++ e ++ "*\n\n"
      | none => "")
  ++ "### Plagiarism Check\n"
  ++ (if plagiarism_results.isEmpty then
        "No plagiarism checkers were enabled.\n"
      else
        String.join ((plagiarism_results.filter (fun r => r.success)).map
          (fun r => "- **" ++ r.service_name ++ "**: Check completed\n"))
        ++ String.join ((plagiarism_results.filter (fun r => !r.success)).map
          (fun r => "- **" ++ r.service_name ++ "**: " ++ pyStr r.error ++ "\n")))
  ++ "\n### AI Content Detection\n"
  ++ (if ai_detection_results.isEmpty then
        "No AI detectors were enabled.\n"
      else
        String.join ((ai_detection_results.filter (fun r => r.success)).map
          (fun r => "- **" ++ r.service_name ++ "**: Detection completed\n"))
        ++ String.join ((ai_detection_results.filter (fun r => !r.success)).map
          (fun r => "- **" ++ r.service_name ++ "**: " ++ pyStr r.error ++ "\n")))
  ++ "\n### Recommendations\n"
  ++ "Review the detailed results from each service to understand the analysis findings.\n"

/-- `backend/services/summarizer.py` `generate_summary`: if the key is
falsy, return the deterministic fallback without touching the
language-model world; otherwise call the provider on the prepared context:
a raised exception falls back with the exception message as annotation,
and a falsy completion content (Python `content or fallback`, i.e. `None`
or the empty string) falls back without annotation. -/
def generate_summary (text : String)
    (plagiarism_results ai_detection_results : List ServiceResult)
    (openai_api_key : String) (openai_model : String)
    (w : String → LlmOutcome) : String :=
  let _ := openai_model
  if openai_api_key = "" then
    generate_fallback_summary plagiarism_results ai_detection_results none
  else
    match w (prepare_results_context text plagiarism_results
        ai_detection_results) with
    | .ok content =>
        match content with
        | some s =>
            if s = "" then
              generate_fallback_summary plagiarism_results
                ai_detection_results none
            else s
        | none =>
            generate_fallback_summary plagiarism_results
              ai_detection_results none
    | .exn msg =>
        generate_fallback_summary plagiarism_results ai_detection_results
          (some msg)

/-- Claim C5: with an empty `llm_credential` the summary generator makes
no language-model attempt (the output is the same whatever the
language-model world would answer) and returns exactly the deterministic
template render, byte-identical across repeated calls; empty categories
render as the "none enabled" lines, and the output always ends with the
static recommendations section. -/
theorem summary_empty_key_is_deterministic_fallback (text : String)
    (pr ar : List ServiceResult) (model : String)
    (w w2 : String → LlmOutcome) :
    generate_summary text pr ar "" model w =
      generate_fallback_summary pr ar none ∧
    generate_summary text pr ar "" model w =
      generate_summary text pr ar "" model w2 ∧
    generate_fallback_summary [] [] none =
      "## Analysis Summary\n\n### Plagiarism Check\nNo plagiarism checkers were enabled.\n\n### AI Content Detection\nNo AI detectors were enabled.\n\n### Recommendations\nReview the detailed results from each service to understand the analysis findings.\n" ∧
    ∃ s, generate_fallback_summary pr ar none =
      s ++ "\n### Recommendations\nReview the detailed results from each service to understand the analysis findings.\n" := by
  refine ⟨rfl, rfl, rfl, ?_⟩
  rw [generate_fallback_summary, String.append_assoc]
  exact ⟨_, rfl⟩

/-- Claim C6 counterexample: with a configured credential and a
language-model call that returns an EMPTY completion, the summary is the
plain deterministic fallback with NO annotation line (Python
`content or _generate_fallback_summary(...)` calls the fallback without
the error argument) — refuting "annotated with the failure reason" for
the empty-response failure; the second conjunct exhibits the template
verbatim, visibly annotation-free. -/
theorem summary_empty_response_is_unannotated :
    generate_summary "sample text" [] [] "sk-key" "gpt-4"
      (fun _ => .ok (some "")) =
      generate_fallback_summary [] [] none ∧
    generate_summary "sample text" [] [] "sk-key" "gpt-4"
      (fun _ => .ok (some "")) =
      "## Analysis Summary\n\n### Plagiarism Check\nNo plagiarism checkers were enabled.\n\n### AI Content Detection\nNo AI detectors were enabled.\n\n### Recommendations\nReview the detailed results from each service to understand the analysis findings.\n" ∧
    generate_fallback_summary [] [] none ≠
      generate_fallback_summary [] [] (some "empty response") := by
  refine ⟨rfl, rfl, ?_⟩
  decide

/-- Claim C6 (amended): with a configured credential, any failure of the
language-model call is caught and converted to the deterministic
fallback — annotated with the exception message when the call raised, and
UNANNOTATED when the call returned an empty (`""`) or missing (`None`)
completion; a non-empty completion is returned as is; the function is
total, so no exception ever reaches the caller. -/
theorem summary_llm_failure_falls_back (text : String)
    (pr ar : List ServiceResult) (key model msg rsp : String)
    (w : String → LlmOutcome) (hkey : ¬ key = "") :
    (w (prepare_results_context text pr ar) = .exn msg →
      generate_summary text pr ar key model w =
        generate_fallback_summary pr ar (some msg)) ∧
    (w (prepare_results_context text pr ar) = .ok none →
      generate_summary text pr ar key model w =
        generate_fallback_summary pr ar none) ∧
    (w (prepare_results_context text pr ar) = .ok (some "") →
      generate_summary text pr ar key model w =
        generate_fallback_summary pr ar none) ∧
    (w (prepare_results_context text pr ar) = .ok (some rsp) → ¬ rsp = "" →
      generate_summary text pr ar key model w = rsp) := by
  refine ⟨?_, ?_, ?_, ?_⟩
  · intro hw
    rw [generate_summary]
    simp only [if_neg hkey, hw]
  · intro hw
    rw [generate_summary]
    simp only [if_neg hkey, hw]
  · intro hw
    rw [generate_summary]
    simp [if_neg hkey, hw]
  · intro hw hrsp
    rw [generate_summary]
    simp only [if_neg hkey, hw, if_neg hrsp]

theorem summary_llm_failure_falls_back_witness :
    ((fun _ => LlmOutcome.exn "auth failure" :
        String → LlmOutcome) (prepare_results_context "sample text" [] []) =
        .exn "auth failure" →
      generate_summary "sample text" [] [] "sk-key" "gpt-4"
        (fun _ => .exn "auth failure") =
        generate_fallback_summary [] [] (some "auth failure")) ∧
    ((fun _ => LlmOutcome.exn "auth failure" :
        String → LlmOutcome) (prepare_results_context "sample text" [] []) =
        .ok none →
      generate_summary "sample text" [] [] "sk-key" "gpt-4"
        (fun _ => .exn "auth failure") =
        generate_fallback_summary [] [] none) ∧
    ((fun _ => LlmOutcome.exn "auth failure" :
        String → LlmOutcome) (prepare_results_context "sample text" [] []) =
        .ok (some "") →
      generate_summary "sample text" [] [] "sk-key" "gpt-4"
        (fun _ => .exn "auth failure") =
        generate_fallback_summary [] [] none) ∧
    ((fun _ => LlmOutcome.exn "auth failure" :
        String → LlmOutcome) (prepare_results_context "sample text" [] []) =
        .ok (some "fine") → ¬ "fine" = "" →
      generate_summary "sample text" [] [] "sk-key" "gpt-4"
        (fun _ => .exn "auth failure") = "fine") :=
  summary_llm_failure_falls_back "sample text" [] [] "sk-key" "gpt-4"
    "auth failure" "fine" (fun _ => .exn "auth failure") (by decide)

/-- Modelled from the spec: `backend/services/ai_detector.py` is imported
by `backend/main.py` (`detect_all_ai_services`) but its source is not
provided.  Per spec §4.1 the AI-detection category uses the same
dispatcher contract as the plagiarism category — one call per configured
service, each outcome normalised into a `ServiceResult` (here with
`service_type` "ai_detection"), one result per service in input order. -/
def detect_ai (text : String) (service_config : ServiceConfig)
    (outcome : HttpOutcome) : ServiceResult :=
  let service_name := service_config.name.getD "Unknown Service"
  let _ := text
  match outcome with
  | .ok payload =>
      { service_name := service_name, service_type := "ai_detection",
        success := true, result := payload }
  | .timeout =>
      { service_name := service_name, service_type := "ai_detection",
        success := false, error := some "Request timed out" }
  | .statusError code =>
      { service_name := service_name, service_type := "ai_detection",
        success := false, error := some ("HTTP error: " ++ toString code) }
  | .otherError msg =>
      { service_name := service_name, service_type := "ai_detection",
        success := false, error := some msg }

/-- Modelled from the spec: the loop of `detect_all_ai_services`,
mirroring `check_all_plagiarism_services` (spec §4.1, one result per
service in input order). -/
def detect_ai_go (text : String) (w : Nat → HttpOutcome) :
    Nat → List ServiceConfig → List ServiceResult
  | _, [] => []
  | i, cfg :: rest => detect_ai text cfg (w i) :: detect_ai_go text w (i + 1) rest

/-- Modelled from the spec: `detect_all_ai_services` of
`backend/services/ai_detector.py` (missing from the provided sources),
the category dispatch for AI detectors. -/
def detect_all_ai_services (text : String) (services : List ServiceConfig)
    (w : Nat → HttpOutcome) : List ServiceResult :=
  detect_ai_go text w 0 services

/-- `backend/models.py` `RephraseResponse`: response of the `/rephrase`
endpoint. -/
structure RephraseResponse where
  summary : String
  rephrased_text : String
  plagiarism_results : List ServiceResult
  ai_detection_results : List ServiceResult
  original_text : String
deriving Repr, DecidableEq

/-- The per-request configuration snapshot the `/rephrase` handler reads
(`load_config` / `get_enabled_services` / `get_openai_config` are the
external configuration collaborator of spec §6): the three filtered
service lists plus the language-model credential and model. -/
structure AppConfig where
  rephrasing_services : List ServiceConfig
  plagiarism_services : List ServiceConfig
  ai_detector_services : List ServiceConfig
  openai_api_key : String
  openai_model : String

/-- All remote worlds one `/rephrase` request can touch: the rephrasing
attempts, the two category dispatches and the summary language-model
call. -/
structure RephraseWorlds where
  rephr : Nat → RemoteBehavior
  plag : Nat → HttpOutcome
  ai : Nat → HttpOutcome
  llm : String → LlmOutcome

/-- Python `not text or not text.strip()`: true iff the text is empty or
consists only of whitespace. -/
def stripIsEmpty (s : String) : Bool :=
  s.data.all (fun c => c.isWhitespace)

/-- `backend/main.py` `rephrase_text` (the `/rephrase` handler), with
`HTTPException` embedded as `Except.error (status_code, detail)`:
validate the text, run the ordered fallback rephraser, abort with 500 on
a failed or empty rephrase, else dispatch both categories against the
rephrased text, summarize, and return the response.  Note
`f"Rephrasing failed: ..."` renders an absent error as "None". -/
def rephrase_text_endpoint (text : String) (config : AppConfig)
    (env_key : String) (w : RephraseWorlds) :
    Except (Nat × String) RephraseResponse :=
  if stripIsEmpty text then
    .error (400, "No text provided for rephrasing.")
  else
    let pr := rephrase_with_first_enabled text config.rephrasing_services
      w.rephr env_key
    let rephrased_text := pr.1
    let rephrase_result := pr.2
    if rephrase_result.success = false then
      .error (500, "Rephrasing failed: " ++ pyStr rephrase_result.error)
    else if rephrased_text = "" then
      .error (500, "Rephrasing returned empty text")
    else
      let plagiarism_results := check_all_plagiarism_services rephrased_text
        config.plagiarism_services w.plag
      let ai_detection_results := detect_all_ai_services rephrased_text
        config.ai_detector_services w.ai
      let summary := generate_summary rephrased_text plagiarism_results
        ai_detection_results config.openai_api_key config.openai_model w.llm
      .ok { summary := summary, rephrased_text := rephrased_text,
            plagiarism_results := plagiarism_results,
            ai_detection_results := ai_detection_results,
            original_text := text }

/-- Claim C8 counterexample: with zero enabled rephrasing services the
failure `ServiceResult` carries the error string
"No rephrasing services enabled" (capital N), not the claimed literal
"no rephrasing services enabled", and the flow's user-facing detail
embeds the capitalised message. -/
theorem rephrase_no_services_error_is_capitalized :
    (rephrase_with_first_enabled "Hello world" []
      (fun _ => ⟨.timeout, .ok none⟩) "").2.error =
      some "No rephrasing services enabled" ∧
    (rephrase_with_first_enabled "Hello world" []
      (fun _ => ⟨.timeout, .ok none⟩) "").2.error ≠
      some "no rephrasing services enabled" ∧
    rephrase_text_endpoint "Hello world"
      { rephrasing_services := [], plagiarism_services := [],
        ai_detector_services := [], openai_api_key := "",
        openai_model := "gpt-4" } ""
      ⟨fun _ => ⟨.timeout, .ok none⟩, fun _ => .timeout, fun _ => .timeout,
        fun _ => .ok none⟩ =
      .error (500, "Rephrasing failed: No rephrasing services enabled") := by
  refine ⟨rfl, by decide, rfl⟩

/-- Claim C8 (amended): in the rephrase flow, whenever the rephraser
result is a failure the flow aborts with status 500 and detail
"Rephrasing failed: " followed by the rephrase failure reason verbatim,
and no plagiarism or AI-detection dispatch ever runs (the outcome is
independent of the dispatch and summary worlds); in particular, with zero
enabled rephrasing services the rephraser immediately returns the empty
string and a failure `ServiceResult` with error
"No rephrasing services enabled" (capital N) without attempting any call,
and the flow aborts with detail
"Rephrasing failed: No rephrasing services enabled". -/
theorem rephrase_flow_aborts_on_rephrase_failure (text env_key : String)
    (config : AppConfig) (w : RephraseWorlds)
    (htext : stripIsEmpty text = false)
    (hfail : (rephrase_with_first_enabled text config.rephrasing_services
      w.rephr env_key).2.success = false) :
    rephrase_text_endpoint text config env_key w =
      .error (500, "Rephrasing failed: " ++
        pyStr (rephrase_with_first_enabled text config.rephrasing_services
          w.rephr env_key).2.error) ∧
    (∀ w2 : RephraseWorlds, w2.rephr = w.rephr →
      rephrase_text_endpoint text config env_key w2 =
        rephrase_text_endpoint text config env_key w) ∧
    (config.rephrasing_services = [] →
      rephrase_with_first_enabled text config.rephrasing_services
          w.rephr env_key = ("", noServicesResult) ∧
      rephrase_attempts text config.rephrasing_services w.rephr env_key =
        [] ∧
      rephrase_text_endpoint text config env_key w =
        .error (500, "Rephrasing failed: No rephrasing services enabled")) := by
  have habort : rephrase_text_endpoint text config env_key w =
      .error (500, "Rephrasing failed: " ++
        pyStr (rephrase_with_first_enabled text config.rephrasing_services
          w.rephr env_key).2.error) := by
    rw [rephrase_text_endpoint]
    simp only [htext, Bool.false_eq_true, if_false, hfail, if_true]
  refine ⟨habort, ?_, ?_⟩
  · intro w2 hw2
    rw [habort, rephrase_text_endpoint]
    simp only [htext, Bool.false_eq_true, if_false, hw2, hfail, if_true]
  · intro hempty
    have hres : rephrase_with_first_enabled text config.rephrasing_services
        w.rephr env_key = ("", noServicesResult) := by
      rw [hempty]; rfl
    refine ⟨hres, by rw [hempty]; rfl, ?_⟩
    rw [habort, hres]
    rfl

theorem rephrase_flow_aborts_on_rephrase_failure_witness :
    rephrase_text_endpoint "Hello world"
      { rephrasing_services := [],
        plagiarism_services := [{ name := some "P" }],
        ai_detector_services := [{ name := some "D" }],
        openai_api_key := "", openai_model := "gpt-4" } ""
      ⟨fun _ => ⟨.timeout, .ok none⟩, fun _ => .timeout, fun _ => .timeout,
        fun _ => .ok none⟩ =
      .error (500, "Rephrasing failed: " ++
        pyStr (rephrase_with_first_enabled "Hello world" []
          (fun _ => ⟨.timeout, .ok none⟩) "").2.error) ∧
    (∀ w2 : RephraseWorlds,
      w2.rephr = (fun _ => (⟨.timeout, .ok none⟩ : RemoteBehavior)) →
      rephrase_text_endpoint "Hello world"
        { rephrasing_services := [],
          plagiarism_services := [{ name := some "P" }],
          ai_detector_services := [{ name := some "D" }],
          openai_api_key := "", openai_model := "gpt-4" } "" w2 =
        rephrase_text_endpoint "Hello world"
          { rephrasing_services := [],
            plagiarism_services := [{ name := some "P" }],
            ai_detector_services := [{ name := some "D" }],
            openai_api_key := "", openai_model := "gpt-4" } ""
          ⟨fun _ => ⟨.timeout, .ok none⟩, fun _ => .timeout,
            fun _ => .timeout, fun _ => .ok none⟩) ∧
    (([] : List ServiceConfig) = [] →
      rephrase_with_first_enabled "Hello world" []
          (fun _ => ⟨.timeout, .ok none⟩) "" = ("", noServicesResult) ∧
      rephrase_attempts "Hello world" []
        (fun _ => ⟨.timeout, .ok none⟩) "" = [] ∧
      rephrase_text_endpoint "Hello world"
        { rephrasing_services := [],
          plagiarism_services := [{ name := some "P" }],
          ai_detector_services := [{ name := some "D" }],
          openai_api_key := "", openai_model := "gpt-4" } ""
        ⟨fun _ => ⟨.timeout, .ok none⟩, fun _ => .timeout, fun _ => .timeout,
          fun _ => .ok none⟩ =
        .error (500, "Rephrasing failed: No rephrasing services enabled")) :=
  rephrase_flow_aborts_on_rephrase_failure "Hello world" ""
    { rephrasing_services := [],
      plagiarism_services := [{ name := some "P" }],
      ai_detector_services := [{ name := some "D" }],
      openai_api_key := "", openai_model := "gpt-4" }
    ⟨fun _ => ⟨.timeout, .ok none⟩, fun _ => .timeout, fun _ => .timeout,
      fun _ => .ok none⟩
    rfl rfl

end AiPlagCheck
